import Mathlib

/-!
Verification development for `nasa_apod_desktop.py`.

The source's pure/algorithmic core is shallowly embedded below.  External
effects are made explicit:

* the network is an `Oracle` (remote `content-length` per URL) plus, per
  fetched page, an `HttpOutcome`;
* the filesystem and the network-call counters are a `World` record that
  is threaded through the functions exactly where the source performs
  `os.path.isfile`, `urllib.urlopen` and `urllib.urlretrieve`;
* the `xrandr`-output parsing boundary of `find_resolution` is represented
  by the list of already-parsed `connected WxH` matches (largest mode) and
  the optional parsed `current W x H` pair (stretch mode).

Python's `re.search` with the patterns `<a href="(image.*?)"` and
`<img src="(image.*?)"` (flag `re.IGNORECASE`) is embedded as a left-to-right
scan over the character list of the document.
-/

namespace NasaApod

/-- Case-insensitive character equality, as under Python's `re.IGNORECASE`. -/
def ciEqc (a b : Char) : Bool :=
  a.toLower == b.toLower

/-- Does `t` start with the pattern `pat`, case-insensitively? -/
def ciStarts : List Char → List Char → Bool
  | [], _ => true
  | _ :: _, [] => false
  | a :: as, b :: bs => ciEqc a b && ciStarts as bs

/-- The lazy group `(.*?)"` of the source's regex: the characters up to the
first double quote.  Python's `.` does not match a newline, so a newline (or
the end of the text) before the closing quote means no match here. -/
def captureQ : List Char → Option (List Char)
  | [] => none
  | c :: rest =>
    if c = '"' then some []
    else if c = '\n' then none
    else (captureQ rest).map (fun g => c :: g)

/-- Case-sensitive substring test, Python's `needle in hay`. -/
def litStarts : List Char → List Char → Bool
  | [], _ => true
  | _ :: _, [] => false
  | a :: as, b :: bs => a == b && litStarts as bs

/-- Case-sensitive containment (`"http" in reg.group(1)` in the source). -/
def containsSub (needle : List Char) : List Char → Bool
  | [] => litStarts needle []
  | hay@(_ :: rest) => litStarts needle hay || containsSub needle rest

/-- Case-insensitive containment, used only by the spec-worded locator. -/
def ciContains (needle : List Char) : List Char → Bool
  | [] => ciStarts needle []
  | hay@(_ :: rest) => ciStarts needle hay || ciContains needle rest

/-- The fixed part of the source regex `"<" + element + '="(...'`:
`<a href="` or `<img src="`. -/
def anchorPat (element : String) : List Char :=
  ('<' :: element.data) ++ ['=', '"']

/-- Embedding of `re.search("<" + element + '="(image.*?)"', text, re.IGNORECASE)`:
scan left to right; at a position where the fixed part matches and the five
characters after the quote spell `image` (case-insensitively), the group is
everything up to the next quote, kept in its original case. -/
def reSearchAux (pre : List Char) : List Char → Option (List Char)
  | [] => none
  | t@(_ :: rest) =>
    if ciStarts pre t && ciStarts "image".data (t.drop pre.length) then
      match captureQ (t.drop pre.length) with
      | some g => some g
      | none => reSearchAux pre rest
    else reSearchAux pre rest

/-- The source's image search over a document, returning the matched group. -/
def reSearchImage (element text : String) : Option String :=
  (reSearchAux (anchorPat element) text.data).map (fun g => String.mk g)

/-- The same scan with the starts-with-`image` test applied to the captured
group instead of to the raw text; used to state the amended locator claim. -/
def locateStartsAux (pre : List Char) : List Char → Option (List Char)
  | [] => none
  | t@(_ :: rest) =>
    if ciStarts pre t then
      match captureQ (t.drop pre.length) with
      | some g => if ciStarts "image".data g then some g else locateStartsAux pre rest
      | none => locateStartsAux pre rest
    else locateStartsAux pre rest

/-- Modelled from the spec sentence for the locator: the first occurrence of
the strategy's pattern whose referenced path CONTAINS the substring `image`
(case-insensitive).  This follows the spec's words, for comparison with the
source's `reSearchImage`; the source anchors `image` at the start of the
group instead. -/
def locateContainsAux (pre : List Char) : List Char → Option (List Char)
  | [] => none
  | t@(_ :: rest) =>
    if ciStarts pre t then
      match captureQ (t.drop pre.length) with
      | some g => if ciContains "image".data g then some g else locateContainsAux pre rest
      | none => locateContainsAux pre rest
    else locateContainsAux pre rest

/-- Embedding of `os.path.basename`: everything after the last slash. -/
def basenameL (cs : List Char) : List Char :=
  cs.foldl (fun acc c => if c == '/' then [] else acc ++ [c]) []

/-- Index of the last dot, if any. -/
def lastDotIdx (cs : List Char) : Option Nat :=
  (List.range cs.length).foldl
    (fun acc i => if cs.getD i ' ' == '.' then some i else acc) none

/-- Embedding of `os.path.splitext(...)[0]`: drop the extension after the last
dot, except when every character before that dot is itself a dot. -/
def splitextStem (cs : List Char) : List Char :=
  match lastDotIdx cs with
  | none => cs
  | some i => if (cs.take i).all (fun c => c == '.') then cs else cs.take i

/-- Embedding of `os.path.join` for the shapes the source uses. -/
def pathJoin (a b : String) : String :=
  if a == "" then b
  else if a.data.getLast? == some '/' then a ++ b
  else a ++ "/" ++ b

/-- The network boundary: the remote `content-length` reported for a URL
(the value `float(remote_file.headers.get("content-length"))` reads). -/
structure Oracle where
  contentLength : String → Nat

/-- The observable machine state threaded through the embedding: files present
in the download directory, and counters of the source's network calls
(`urllib.urlopen` in `get_image_info`, `urllib.urlretrieve` in `get_image`). -/
structure World where
  files : List String
  urlopens : Nat
  urlretrieves : Nat
deriving DecidableEq, Repr

/-- The pure part of `get_image_info`: match the document, build the file URL
(prefixing the site when the group does not contain `http`), take the
basename and ask the oracle for the size. -/
def infoFst (element text site : String) (o : Oracle) :
    Option (String × String × Nat) :=
  match reSearchImage element text with
  | none => none
  | some g =>
    let file_url := if containsSub "http".data g.data then g else site ++ g
    some (file_url, String.mk (basenameL file_url.data), o.contentLength file_url)

/-- Embedding of `get_image_info(element, text, NASA_APOD_SITE, ...)`.  When a
match is found the source opens the remote URL (`urllib.urlopen`) to read its
`content-length`; the world records that network call. -/
def get_image_info (element text site : String) (o : Oracle) (w : World) :
    Option (String × String × Nat) × World :=
  match infoFst element text site o with
  | none => (none, w)
  | some r => (some r, { w with urlopens := w.urlopens + 1 })

/-- Result of `get_image`: a saved local path, `None` (video day), or the
source's `exit()` call, which terminates the whole process. -/
inductive GetImageResult where
  | found (path : String)
  | noImage
  | exitRun
deriving DecidableEq, Repr

/-- Embedding of `urllib.urlretrieve(file_url, save_to)`: creates `save_to`
and performs one payload download. -/
def retrieveTo (save_to : String) (w : World) : World :=
  { w with files := save_to :: w.files, urlretrieves := w.urlretrieves + 1 }

/-- The local path the source computes at line 221:
`os.path.join(DOWNLOAD_PATH, os.path.splitext(filename)[0] + ".png")`. -/
def saveTo (DOWNLOAD_PATH filename : String) : String :=
  pathJoin DOWNLOAD_PATH (String.mk (splitextStem filename.data) ++ ".png")

/-- Embedding of `get_image(text, DOWNLOAD_PATH, NASA_APOD_SITE, ...)`.
Faithful details: the local path is derived from the primary strategy's
filename and is not recomputed after the fallback; the size check and the
fallback run only when the local file does not already exist; a sub-threshold
size after the fallback reaches the source's `exit()`. -/
def get_image (text DOWNLOAD_PATH NASA_APOD_SITE : String) (o : Oracle)
    (w : World) : GetImageResult × World :=
  match get_image_info "a href" text NASA_APOD_SITE o w with
  | (none, w1) => (.noImage, w1)
  | (some (_file_url, filename, file_size), w1) =>
    let save_to := saveTo DOWNLOAD_PATH filename
    if save_to ∈ w1.files then (.found save_to, w1)
    else if file_size < 500 then
      match get_image_info "img src" text NASA_APOD_SITE o w1 with
      | (none, w2) => (.noImage, w2)
      | (some (_file_url2, _, file_size2), w2) =>
        if file_size2 < 500 then (.exitRun, w2)
        else (.found save_to, retrieveTo save_to w2)
    else (.found save_to, retrieveTo save_to w1)

/-- What the network does for one HTTP GET. -/
inductive HttpOutcome where
  | ok (body : String)
  | httpError (code : Nat)
  | transportError
deriving DecidableEq, Repr

/-- Embedding of `download_site`.  Only `urllib2.HTTPError` is caught, and it
is converted to the string `"Error: " ++ code`; any other failure of
`opener.open` (such as `urllib2.URLError` for a transport-level fault)
propagates as an exception, modelled by `Except.error`. -/
def download_site (outcome : HttpOutcome) : Except Unit String :=
  match outcome with
  | .ok body => .ok body
  | .httpError code => .ok ("Error: " ++ toString code)
  | .transportError => .error ()

/-- Embedding of the guard in `main`: `if site_contents == "error": exit()`. -/
def todayAborts (site_contents : String) : Bool :=
  site_contents == "error"

/-- How a run of the seed loop ended: counter exhausted normally, the supplied
day feed ran out while the source loop would keep walking back, the process
exited via `get_image`'s `exit()`, or an uncaught exception from
`download_site` crashed it. -/
inductive SeedStop where
  | done
  | fuelOut
  | exited
  | crashed
deriving DecidableEq, Repr

/-- Embedding of the seeding `while seed_images_left > 0` loop of
`create_desktop_background_scoll`.  `feed` lists the `HttpOutcome` of each
successive day going back from yesterday; `days_back` counts iterations as the
source does.  `resize_image` changes pixel data only, so it does not appear in
the world. -/
def seedLoop (DOWNLOAD_PATH NASA_APOD_SITE : String) (o : Oracle) :
    List HttpOutcome → Nat → List String → Nat → World →
    List String × Nat × World × SeedStop
  | _, 0, images, days_back, w => (images, days_back, w, .done)
  | [], _ + 1, images, days_back, w => (images, days_back, w, .fuelOut)
  | day :: rest, left + 1, images, days_back, w =>
    match download_site day with
    | .error _ => (images, days_back + 1, w, .crashed)
    | .ok contents =>
      if contents == "error" then
        seedLoop DOWNLOAD_PATH NASA_APOD_SITE o rest (left + 1) images (days_back + 1) w
      else
        match get_image contents DOWNLOAD_PATH NASA_APOD_SITE o w with
        | (.noImage, w1) =>
          seedLoop DOWNLOAD_PATH NASA_APOD_SITE o rest (left + 1) images (days_back + 1) w1
        | (.exitRun, w1) => (images, days_back + 1, w1, .exited)
        | (.found fn, w1) =>
          seedLoop DOWNLOAD_PATH NASA_APOD_SITE o rest left (images ++ [fn]) (days_back + 1) w1

/-- One slide of the background XML: the static entry's file and duration and
the transition entry's duration, from and to. -/
structure SlideEntry where
  file : String
  duration : Nat
  tduration : String
  tfrom : String
  tto : String
deriving DecidableEq, Repr, Inhabited

/-- Embedding of the XML-building loop of `create_desktop_background_scoll`:
one static/transition pair per image, transition duration the literal `"5"`,
and the last entry wrapping its `to` back to `images[0]`. -/
def buildPlaylist (images : List String) (IMAGE_DURATION : Nat) : List SlideEntry :=
  (List.range images.length).map (fun i =>
    { file := images.getD i ""
      duration := IMAGE_DURATION
      tduration := "5"
      tfrom := images.getD i ""
      tto := if i + 1 = images.length then images.getD 0 "" else images.getD (i + 1) "" })

/-- Outcome of `create_desktop_background_scoll` when the XML path is taken. -/
structure ScrollResult where
  images : List String
  playlist : List SlideEntry
  world : World
deriving Repr

/-- Embedding of `create_desktop_background_scoll`.  The `*.png` glob is the
world's file list; `shuffle` stands for `random.shuffle`; the feed supplies
the pages of the days walked back.  `none` means no playlist was produced:
the feature is off, or the run died inside the seed loop (`exit()` or an
uncaught exception). -/
def create_scroll (IMAGE_SCROLL : Bool) (IMAGE_DURATION : Nat)
    (DOWNLOAD_PATH : String) (SEED_IMAGES : Nat) (NASA_APOD_SITE : String)
    (o : Oracle) (feed : List HttpOutcome)
    (shuffle : List String → List String) (w : World) : Option ScrollResult :=
  if !IMAGE_SCROLL then none
  else
    let images := w.files
    if images.length < SEED_IMAGES then
      match seedLoop DOWNLOAD_PATH NASA_APOD_SITE o feed SEED_IMAGES images 0 w with
      | (images2, _, w2, .done) =>
        let shuffled := shuffle images2
        some ⟨shuffled, buildPlaylist shuffled IMAGE_DURATION, w2⟩
      | (images2, _, w2, .fuelOut) =>
        let shuffled := shuffle images2
        some ⟨shuffled, buildPlaylist shuffled IMAGE_DURATION, w2⟩
      | (_, _, _, .exited) => none
      | (_, _, _, .crashed) => none
    else
      let shuffled := shuffle images
      some ⟨shuffled, buildPlaylist shuffled IMAGE_DURATION, w⟩

/-- The three resolution modes of the source. -/
inductive ResolutionTypes where
  | stretch
  | largest
  | default
deriving DecidableEq, Repr

/-- Embedding of the `largest` branch's loop over
`re.finditer(" connected ([0-9]+)x([0-9]+)+", output)`.  In the source the
comparison is `int(g1) * int(g2) > largest` where `largest` is initialised to
0 and never reassigned, so every positive-area match overwrites the running
pair and the last one wins.  `none` models the initial Python `res_x = 0`
(the unset int sentinel); after an assignment the values are the matched
digit strings. -/
def largestScan (ms : List (Nat × Nat)) : Option (Nat × Nat) :=
  ms.foldl (fun acc p => if 0 < p.1 * p.2 then some p else acc) none

/-- Embedding of `find_resolution(res_type, x, y)`.  The `xrandr` boundary is
given as the parsed `connected WxH` matches and the parsed `current W x H`
pair.  The final guard `if res_x == 0 or res_y == 0` compares against the int
0: it fires only when the variables still hold the initial int sentinel,
because a parsed group is a Python string and `"0" == 0` is false; hence a
parsed pair is returned as-is and only the unset state falls back to the
supplied defaults. -/
def find_resolution (res_type : ResolutionTypes) (x y : Nat)
    (connected : List (Nat × Nat)) (current : Option (Nat × Nat)) : Nat × Nat :=
  match res_type with
  | .default => (x, y)
  | .largest =>
    match largestScan connected with
    | some p => p
    | none => (x, y)
  | .stretch =>
    match current with
    | some p => p
    | none => (x, y)

/-- Test fixture: the default APOD site base URL. -/
def siteT : String := "http://apod.nasa.gov/apod/"

/-- Test fixture: the default download directory. -/
def dpT : String := "/tmp/backgrounds"

/-- Test fixture: a network oracle reporting 100 bytes for any URL containing
the letter `z` and 1000 bytes otherwise. -/
def oT : Oracle := ⟨fun u => if containsSub "z".data u.data then 100 else 1000⟩

/-- Test fixture: empty download directory, no network calls yet. -/
def w0 : World := ⟨[], 0, 0⟩

/-- Test fixture: a page whose anchor references a healthy image `sN.jpg`. -/
def docGood (n : String) : String := "<a href=\"image/s" ++ n ++ ".jpg\">"

/-- Test fixture: a page whose anchor and img tags both reference
sub-threshold payloads (URLs containing `z`, which `oT` sizes at 100). -/
def docSub : String := "<a href=\"image/z1.jpg\"> <img src=\"image/z2.jpg\">"

/-- Test fixture: a page whose anchor is sub-threshold but whose `img src`
fallback is healthy. -/
def docSubThenGood : String := "<a href=\"image/z1.jpg\"> <img src=\"image/s9.jpg\">"

/-- Test fixture: a video-day page with no image reference at all. -/
def docVideo : String := "only a video here today"

/-- Test fixture: the day feed of claim C4's scenario — an HTTP-failing day,
a video day, then three healthy days. -/
def feedC4 : List HttpOutcome :=
  [.httpError 404, .ok docVideo, .ok (docGood "3"), .ok (docGood "4"), .ok (docGood "5")]

/-- Test fixture: two healthy days, used to instantiate claim C10. -/
def feedW : List HttpOutcome := [.ok (docGood "3"), .ok (docGood "4")]

/-- A day whose page downloads over HTTP, whose body is not the literal string
`"error"`, and whose primary `a href` strategy locates an image of plausible
declared size.  Such a day succeeds in the seed loop from any world: if the
derived local path already exists the source takes the cache hit, otherwise it
downloads. -/
def goodDay (site : String) (o : Oracle) (d : HttpOutcome) : Prop :=
  ∃ body u f sz, d = .ok body ∧ body ≠ "error" ∧
    infoFst "a href" body site o = some (u, f, sz) ∧ 500 ≤ sz

end NasaApod

namespace NasaApod

theorem get_image_info_none (e t s : String) (o : Oracle) (w : World)
    (h : infoFst e t s o = none) : get_image_info e t s o w = (none, w) := by
  unfold get_image_info
  rw [h]

theorem get_image_info_some (e t s : String) (o : Oracle) (w w1 : World)
    (r : String × String × Nat) (h : get_image_info e t s o w = (some r, w1)) :
    infoFst e t s o = some r ∧ w1 = { w with urlopens := w.urlopens + 1 } := by
  unfold get_image_info at h
  cases hinfo : infoFst e t s o with
  | none =>
    rw [hinfo] at h
    injection h with h1 h2
    exact Option.noConfusion h1
  | some r2 =>
    rw [hinfo] at h
    injection h with h1 h2
    injection h1 with h1
    exact ⟨by rw [h1], h2.symm⟩

/-- Characterization of `get_image` in terms of the pure locator `infoFst`:
the primary locate (with its metadata `urlopen`), the cache-hit test against
the pre-existing files, the 500-byte check, the single fallback locate, and
either `exit()` or one `urlretrieve` into the path derived from the primary
filename. -/
theorem get_image_eq (text dp site : String) (o : Oracle) (w : World) :
    get_image text dp site o w =
      match infoFst "a href" text site o with
      | none => (.noImage, w)
      | some (_, f, sz) =>
        let w1 : World := { w with urlopens := w.urlopens + 1 }
        if saveTo dp f ∈ w.files then (.found (saveTo dp f), w1)
        else if sz < 500 then
          match infoFst "img src" text site o with
          | none => (.noImage, w1)
          | some (_, _, sz2) =>
            let w2 : World := { w1 with urlopens := w1.urlopens + 1 }
            if sz2 < 500 then (.exitRun, w2)
            else (.found (saveTo dp f), retrieveTo (saveTo dp f) w2)
        else (.found (saveTo dp f), retrieveTo (saveTo dp f) w1) := by
  unfold get_image get_image_info
  cases infoFst "a href" text site o with
  | none => rfl
  | some r =>
    obtain ⟨u, f, sz⟩ := r
    cases infoFst "img src" text site o with
    | none => rfl
    | some r2 => rfl

theorem get_image_found_of_good (body dp site : String) (o : Oracle) (w : World)
    (u f : String) (sz : Nat)
    (h : infoFst "a href" body site o = some (u, f, sz)) (hsz : 500 ≤ sz) :
    ∃ w1, get_image body dp site o w = (.found (saveTo dp f), w1) := by
  rw [get_image_eq, h]
  simp only
  by_cases hmem : saveTo dp f ∈ w.files
  · rw [if_pos hmem]
    exact ⟨_, rfl⟩
  · rw [if_neg hmem, if_neg (Nat.not_lt.mpr hsz)]
    exact ⟨_, rfl⟩

theorem seedLoop_all_good (dp site : String) (o : Oracle) :
    ∀ (feed : List HttpOutcome), (∀ d ∈ feed, goodDay site o d) →
    ∀ (left : Nat) (images : List String) (db : Nat) (w : World),
      left ≤ feed.length →
      (seedLoop dp site o feed left images db w).1.length = images.length + left ∧
      (seedLoop dp site o feed left images db w).2.2.2 = SeedStop.done ∧
      (seedLoop dp site o feed left images db w).2.1 = db + left := by
  intro feed
  induction feed with
  | nil =>
    intro _ left images db w hle
    have : left = 0 := Nat.le_zero.mp hle
    subst this
    exact ⟨rfl, rfl, rfl⟩
  | cons d rest ih =>
    intro hgood left images db w hle
    cases left with
    | zero => exact ⟨rfl, rfl, rfl⟩
    | succ l =>
      obtain ⟨body, u, f, sz, rfl, hne, hinfo, hsz⟩ := hgood d (List.mem_cons_self d rest)
      obtain ⟨w1, hw1⟩ := get_image_found_of_good body dp site o w u f sz hinfo hsz
      have hb : (body == "error") = false := beq_eq_false_iff_ne.mpr hne
      have hrest : ∀ x ∈ rest, goodDay site o x :=
        fun x hx => hgood x (List.mem_cons_of_mem _ hx)
      have hle2 : l ≤ rest.length := Nat.le_of_succ_le_succ hle
      have hstep := ih hrest l (images ++ [saveTo dp f]) (db + 1) w1 hle2
      show (seedLoop dp site o (HttpOutcome.ok body :: rest) (l + 1) images db w).1.length =
      images.length + (l + 1) ∧ _ ∧ _
      unfold seedLoop
      simp only [download_site, hb, Bool.false_eq_true, if_false, hw1]
      refine ⟨?_, hstep.2.1, ?_⟩
      · rw [hstep.1, List.length_append]
        simp
        omega
      · rw [hstep.2.2]
        omega

theorem largestScan_pos :
    ∀ (ms : List (Nat × Nat)) (acc : Option (Nat × Nat)) (p : Nat × Nat),
      (∀ q, acc = some q → 0 < q.1 ∧ 0 < q.2) →
      ms.foldl (fun a q => if 0 < q.1 * q.2 then some q else a) acc = some p →
      0 < p.1 ∧ 0 < p.2 := by
  intro ms
  induction ms with
  | nil =>
    intro acc p hacc h
    exact hacc p h
  | cons q ms ih =>
    intro acc p hacc h
    simp only [List.foldl_cons] at h
    by_cases hq : 0 < q.1 * q.2
    · rw [if_pos hq] at h
      refine ih _ p ?_ h
      intro r hr
      injection hr with hr
      subst hr
      exact CanonicallyOrderedCommSemiring.mul_pos.mp hq
    · rw [if_neg hq] at h
      exact ih _ p hacc h

end NasaApod

namespace NasaApod

theorem buildPlaylist_length (images : List String) (d : Nat) :
    (buildPlaylist images d).length = images.length := by
  unfold buildPlaylist
  rw [List.length_map, List.length_range]

theorem buildPlaylist_getD (images : List String) (d : Nat) (i : Nat)
    (h : i < images.length) :
    (buildPlaylist images d).getD i default =
      { file := images.getD i ""
        duration := d
        tduration := "5"
        tfrom := images.getD i ""
        tto := if i + 1 = images.length then images.getD 0 ""
               else images.getD (i + 1) "" } := by
  unfold buildPlaylist
  rw [List.getD_eq_getElem?_getD, List.getElem?_map, List.getElem?_range h]
  rfl

theorem buildPlaylist_mem (images : List String) (d : Nat) (e : SlideEntry)
    (h : e ∈ buildPlaylist images d) : e.duration = d ∧ e.tduration = "5" := by
  unfold buildPlaylist at h
  obtain ⟨i, _, rfl⟩ := List.mem_map.mp h
  exact ⟨rfl, rfl⟩

theorem captureQ_ciStarts (pat : List Char)
    (hpat : ∀ c ∈ pat, c.toLower ≠ '"' ∧ c.toLower ≠ '\n') :
    ∀ (s g : List Char), captureQ s = some g → ciStarts pat g = ciStarts pat s := by
  induction pat with
  | nil =>
    intro s g _
    rfl
  | cons c cs ih =>
    intro s g hcap
    cases s with
    | nil => exact Option.noConfusion hcap
    | cons a s =>
      have hc := hpat c (List.mem_cons_self c cs)
      unfold captureQ at hcap
      by_cases ha : a = '"'
      · rw [if_pos ha] at hcap
        injection hcap with hcap
        subst hcap
        subst ha
        show false = (ciEqc c '"' && ciStarts cs s)
        have : ciEqc c '"' = false := by
          unfold ciEqc
          exact beq_eq_false_iff_ne.mpr (by simpa using hc.1)
        rw [this, Bool.false_and]
      · rw [if_neg ha] at hcap
        by_cases hn : a = '\n'
        · rw [if_pos hn] at hcap
          exact Option.noConfusion hcap
        · rw [if_neg hn] at hcap
          cases hs : captureQ s with
          | none =>
            rw [hs] at hcap
            exact Option.noConfusion hcap
          | some g2 =>
            rw [hs] at hcap
            injection hcap with hcap
            subst hcap
            show (ciEqc c a && ciStarts cs g2) = (ciEqc c a && ciStarts cs s)
            rw [ih (fun x hx => hpat x (List.mem_cons_of_mem _ hx)) s g2 hs]

theorem reSearchAux_eq_locateStartsAux (pre : List Char) :
    ∀ t, reSearchAux pre t = locateStartsAux pre t := by
  intro t
  induction t with
  | nil => rfl
  | cons a rest ih =>
    unfold reSearchAux locateStartsAux
    by_cases hpre : ciStarts pre (a :: rest) = true
    · cases hcap : captureQ ((a :: rest).drop pre.length) with
      | some g =>
        have hkey : ciStarts "image".data g =
            ciStarts "image".data ((a :: rest).drop pre.length) :=
          captureQ_ciStarts "image".data (by decide) _ g hcap
        by_cases himg : ciStarts "image".data ((a :: rest).drop pre.length) = true
        · simp only [hpre, himg, Bool.and_self, if_true, hcap, hkey]
        · have himg2 : ciStarts "image".data ((a :: rest).drop pre.length) = false :=
            Bool.eq_false_iff.mpr himg
          simp only [hpre, himg2, Bool.and_false, Bool.false_eq_true, if_false, hcap,
            hkey, ih]
          simp
      | none =>
        by_cases himg : ciStarts "image".data ((a :: rest).drop pre.length) = true
        · simp only [hpre, himg, Bool.and_self, if_true, hcap, ih]
        · have himg2 : ciStarts "image".data ((a :: rest).drop pre.length) = false :=
            Bool.eq_false_iff.mpr himg
          simp only [hpre, himg2, Bool.and_false, Bool.false_eq_true, if_false, hcap, ih]
          simp
    · have hpre2 : ciStarts pre (a :: rest) = false := Bool.eq_false_iff.mpr hpre
      simp only [hpre2, Bool.false_and, Bool.false_eq_true, if_false, ih]

end NasaApod

namespace NasaApod

/-- Claim C1: the spec says Largest mode selects the connected output with the
greatest area, so on [(1920,1080),(2560,1440),(1280,720)] it should return
(2560,1440).  In the source the running maximum `largest` is initialised to 0
and never reassigned, so every positive-area match overwrites the result and
the LAST connected output wins: the code returns (1280,720) here, violating
the claim and the source's own comment. -/
theorem c1_largest_mode_returns_last_output :
    find_resolution .largest 640 480 [(1920, 1080), (2560, 1440), (1280, 720)] none
      = (1280, 720) ∧
    find_resolution .largest 640 480 [(1920, 1080), (2560, 1440), (1280, 720)] none
      ≠ (2560, 1440) := by
  decide

/-- Claim C6: the spec says a failed fetch returns a classified failure rather
than throwing, and that callers recognize it (today's failure terminates the
run).  In the source an HTTP-status failure is returned as the string
`"Error: <code>"`, but `main` compares the result against the literal
`"error"`, which can never match, so the run is NOT terminated; and a
transport-level failure (`urllib2.URLError`) is not caught at all, so it
throws.  Evaluated at an HTTP 404 and at a transport fault. -/
theorem c6_error_sentinel_never_matches :
    download_site (.httpError 404) = .ok "Error: 404" ∧
    todayAborts "Error: 404" = false ∧
    download_site .transportError = .error () := by
  refine ⟨rfl, ?_, rfl⟩
  decide

/-- Claim C7, counterexample: with the valid fallback pair (1920, 1080), a
Stretch-mode display query that parses as `current 0 x 1080` makes
`find_resolution` return the zero width.  The final `res_x == 0` guard
compares the parsed group — a Python string — against the int 0, which is
always false, so only the unset state falls back and a parsed zero passes
through, contradicting the claim that the result is never zero. -/
theorem c7_counterexample_parsed_zero_passes_through :
    find_resolution .stretch 1920 1080 [] (some (0, 1080)) = (0, 1080) ∧
    (find_resolution .stretch 1920 1080 [] (some (0, 1080))).1 = 0 := by
  decide

/-- Claim C7 (amended): for every mode and positive fallback pair, if every
dimension the display query reports is positive — in Largest mode this is
automatic, since only a positive-area match is ever selected — then
`find_resolution` returns positive dimensions; a failed or unusable query
degrades silently to the fallback pair.  (Unset values are replaced by the
fallback; a parsed zero string would not be, as the counterexample shows.) -/
theorem c7_amended_positive_given_positive_query :
    ∀ (rt : ResolutionTypes) (x y : Nat) (connected : List (Nat × Nat))
      (current : Option (Nat × Nat)),
      0 < x → 0 < y →
      (∀ cw ch, current = some (cw, ch) → 0 < cw ∧ 0 < ch) →
      0 < (find_resolution rt x y connected current).1 ∧
      0 < (find_resolution rt x y connected current).2 := by
  intro rt x y connected current hx hy hcur
  cases rt with
  | default => exact ⟨hx, hy⟩
  | largest =>
    show 0 < (match largestScan connected with
      | some p => p
      | none => (x, y)).1 ∧ 0 < (match largestScan connected with
      | some p => p
      | none => (x, y)).2
    cases hscan : largestScan connected with
    | none => exact ⟨hx, hy⟩
    | some p =>
      exact largestScan_pos connected none p (fun q hq => Option.noConfusion hq) hscan
  | stretch =>
    show 0 < (match current with
      | some p => p
      | none => (x, y)).1 ∧ 0 < (match current with
      | some p => p
      | none => (x, y)).2
    cases current with
    | none => exact ⟨hx, hy⟩
    | some p => exact hcur p.1 p.2 rfl

/-- Witness for C7 (amended) at mode Stretch, fallback (800, 600) and a failed
display query. -/
theorem c7_amended_witness :
    0 < 800 ∧ 0 < 600 ∧
    (∀ cw ch, (none : Option (Nat × Nat)) = some (cw, ch) → 0 < cw ∧ 0 < ch) ∧
    (0 < (find_resolution .stretch 800 600 [] none).1 ∧
     0 < (find_resolution .stretch 800 600 [] none).2) :=
  ⟨by decide, by decide, fun _ _ h => Option.noConfusion h,
   c7_amended_positive_given_positive_query .stretch 800 600 [] none
     (by decide) (by decide) (fun _ _ h => Option.noConfusion h)⟩

/-- Claim C8, counterexample: the document `<a href="pics/image1.jpg">` has an
anchor whose referenced path contains the substring `image`, so by the claim
the locator should match it; the source regex `<a href="(image.*?)"` anchors
`image` at the START of the reference, finds nothing here, and the locator
returns no image. -/
theorem c8_counterexample_contains_vs_startswith :
    locateContainsAux (anchorPat "a href") "<a href=\"pics/image1.jpg\">".data =
      some "pics/image1.jpg".data ∧
    reSearchImage "a href" "<a href=\"pics/image1.jpg\">" = none ∧
    (get_image_info "a href" "<a href=\"pics/image1.jpg\">" siteT oT w0).1 = none := by
  decide

/-- Claim C8 (amended): for every document and strategy, the locator matches
the first occurrence of the strategy's pattern whose referenced path STARTS
WITH `image` (case-insensitively), and the matched reference is prefixed with
the site base URL exactly when it does not CONTAIN the substring `http`
(rather than when it is not absolute). -/
theorem c8_amended_startswith_and_http_substring :
    ∀ (element text site : String) (o : Oracle) (w : World),
      get_image_info element text site o w =
        match locateStartsAux (anchorPat element) text.data with
        | none => (none, w)
        | some g =>
          let url := if containsSub "http".data g then String.mk g
                     else site ++ String.mk g
          (some (url, String.mk (basenameL url.data), o.contentLength url),
           { w with urlopens := w.urlopens + 1 }) := by
  intro element text site o w
  unfold get_image_info infoFst reSearchImage
  rw [reSearchAux_eq_locateStartsAux]
  cases locateStartsAux (anchorPat element) text.data with
  | none => rfl
  | some g => rfl

/-- Claim C9: a document in which the strategy's pattern finds no match makes
`get_image_info` return the explicit no-image triple `(None, None, None)`
without any error and without touching the world, and `get_image` on such a
document returns `None`: no local file is produced (the video-day case). -/
theorem c9_no_match_yields_no_image :
    ∀ (element text site dp : String) (o : Oracle) (w : World),
      reSearchImage element text = none →
      get_image_info element text site o w = (none, w) ∧
      (element = "a href" → get_image text dp site o w = (.noImage, w)) := by
  intro element text site dp o w h
  have hinfo : infoFst element text site o = none := by
    unfold infoFst
    rw [h]
  refine ⟨get_image_info_none element text site o w hinfo, ?_⟩
  intro he
  subst he
  rw [get_image_eq, hinfo]

/-- Witness for C9 at a video-day document with no image reference. -/
theorem c9_witness :
    reSearchImage "a href" docVideo = none ∧
    (get_image_info "a href" docVideo siteT oT w0 = (none, w0) ∧
     ("a href" = "a href" → get_image docVideo dpT siteT oT w0 = (.noImage, w0))) :=
  ⟨by decide, c9_no_match_yields_no_image "a href" docVideo siteT dpT oT w0 (by decide)⟩

end NasaApod

namespace NasaApod

theorem get_image_info_none_inv (e t s : String) (o : Oracle) (w w2 : World)
    (h : get_image_info e t s o w = (none, w2)) :
    infoFst e t s o = none ∧ w2 = w := by
  unfold get_image_info at h
  cases hinfo : infoFst e t s o with
  | none =>
    rw [hinfo] at h
    injection h with h1 h2
    exact ⟨rfl, h2.symm⟩
  | some r =>
    rw [hinfo] at h
    injection h with h1 h2
    exact Option.noConfusion h1

/-- Claim C2 (amended): a fresh acquisition whose declared size is below the
500-byte threshold retries the locate step once with the alternate `img src`
strategy.  If the fallback yields no match, the day fails with no local file
produced.  But if the fallback's size is also sub-threshold, the source calls
`exit()`, terminating the WHOLE RUN — including during seeding — rather than
absorbing the failure locally for that day. -/
theorem c2_amended_subthreshold_fallback_exits :
    ∀ (text dp site : String) (o : Oracle) (w w1 : World) (u f : String) (sz : Nat),
      get_image_info "a href" text site o w = (some (u, f, sz), w1) →
      sz < 500 →
      saveTo dp f ∉ w.files →
      ((∀ w2, get_image_info "img src" text site o w1 = (none, w2) →
          get_image text dp site o w = (.noImage, w2) ∧ w2.files = w.files) ∧
       (∀ u2 f2 sz2 w2,
          get_image_info "img src" text site o w1 = (some (u2, f2, sz2), w2) →
          sz2 < 500 →
          get_image text dp site o w = (.exitRun, w2) ∧ w2.files = w.files)) := by
  intro text dp site o w w1 u f sz h1 hsz hmem
  obtain ⟨hinfo, hw1⟩ := get_image_info_some _ _ _ _ _ _ _ h1
  subst hw1
  constructor
  · intro w2 h2
    obtain ⟨hinfo2, hw2⟩ := get_image_info_none_inv _ _ _ _ _ _ h2
    subst hw2
    refine ⟨?_, rfl⟩
    rw [get_image_eq, hinfo]
    dsimp only
    rw [if_neg hmem, if_pos hsz, hinfo2]
  · intro u2 f2 sz2 w2 h2 hsz2
    obtain ⟨hinfo2, hw2⟩ := get_image_info_some _ _ _ _ _ _ _ h2
    subst hw2
    refine ⟨?_, rfl⟩
    rw [get_image_eq, hinfo]
    dsimp only
    rw [if_neg hmem, if_pos hsz, hinfo2]
    dsimp only
    rw [if_pos hsz2]

/-- Claim C2, counterexample: in a seeding run with quota 1, a day whose page
has both strategies sub-threshold (`docSub`) does not merely fail for that
day: the loop ends in the `exit()` state with nothing acquired, and the
following healthy day is never reached — the per-day failure is not absorbed
locally. -/
theorem c2_counterexample_seed_failure_not_absorbed :
    (seedLoop dpT siteT oT [.ok docSub, .ok (docGood "7")] 1 [] 0 w0).1 = [] ∧
    (seedLoop dpT siteT oT [.ok docSub, .ok (docGood "7")] 1 [] 0 w0).2.2.2 =
      SeedStop.exited := by
  decide

/-- Witness for C2 (amended) at the concrete page `docSub`, whose primary
anchor declares 100 bytes. -/
theorem c2_amended_witness :
    get_image_info "a href" docSub siteT oT w0 =
      (some ("http://apod.nasa.gov/apod/image/z1.jpg", "z1.jpg", 100),
        ({ files := [], urlopens := 1, urlretrieves := 0 } : World)) ∧
    (100 : Nat) < 500 ∧
    saveTo dpT "z1.jpg" ∉ w0.files ∧
    ((∀ w2, get_image_info "img src" docSub siteT oT
          ({ files := [], urlopens := 1, urlretrieves := 0 } : World) = (none, w2) →
        get_image docSub dpT siteT oT w0 = (.noImage, w2) ∧ w2.files = w0.files) ∧
     (∀ u2 f2 sz2 w2,
        get_image_info "img src" docSub siteT oT
          ({ files := [], urlopens := 1, urlretrieves := 0 } : World) =
            (some (u2, f2, sz2), w2) →
        sz2 < 500 →
        get_image docSub dpT siteT oT w0 = (.exitRun, w2) ∧ w2.files = w0.files)) :=
  ⟨by decide, by decide, by decide,
   c2_amended_subthreshold_fallback_exits docSub dpT siteT oT w0
     ({ files := [], urlopens := 1, urlretrieves := 0 } : World)
     "http://apod.nasa.gov/apod/image/z1.jpg" "z1.jpg" 100
     (by decide) (by decide) (by decide)⟩

/-- Claim C3 (amended): when the derived local path already exists,
`get_image` performs no payload download (`urlretrieve`) and creates no file —
but it is not network-silent: the locate step's `urllib.urlopen` metadata
fetch of that identity's URL still happens on every acquisition.  Acquiring
the same reference twice therefore performs exactly one payload download (and
one metadata open per acquisition). -/
theorem c3_amended_one_download_but_opens_remote :
    ∀ (text dp site : String) (o : Oracle) (w w1 : World) (u f : String) (sz : Nat),
      get_image_info "a href" text site o w = (some (u, f, sz), w1) →
      ((saveTo dp f ∈ w.files →
         get_image text dp site o w = (.found (saveTo dp f), w1) ∧
         w1.urlretrieves = w.urlretrieves ∧ w1.files = w.files ∧
         w1.urlopens = w.urlopens + 1) ∧
       (saveTo dp f ∉ w.files → 500 ≤ sz →
         (get_image text dp site o w).2.urlretrieves = w.urlretrieves + 1 ∧
         saveTo dp f ∈ (get_image text dp site o w).2.files ∧
         (get_image text dp site o (get_image text dp site o w).2).1 =
           .found (saveTo dp f) ∧
         (get_image text dp site o (get_image text dp site o w).2).2.urlretrieves =
           (get_image text dp site o w).2.urlretrieves)) := by
  intro text dp site o w w1 u f sz h1
  obtain ⟨hinfo, hw1⟩ := get_image_info_some _ _ _ _ _ _ _ h1
  subst hw1
  constructor
  · intro hmem
    refine ⟨?_, rfl, rfl, rfl⟩
    rw [get_image_eq, hinfo]
    dsimp only
    rw [if_pos hmem]
  · intro hmem hsz
    have hrun1 : get_image text dp site o w =
        (.found (saveTo dp f),
         retrieveTo (saveTo dp f) { w with urlopens := w.urlopens + 1 }) := by
      rw [get_image_eq, hinfo]
      dsimp only
      rw [if_neg hmem, if_neg (Nat.not_lt.mpr hsz)]
    have hmem2 : saveTo dp f ∈
        (retrieveTo (saveTo dp f) { w with urlopens := w.urlopens + 1 }).files :=
      List.mem_cons_self _ _
    have hrun2 : get_image text dp site o
        (retrieveTo (saveTo dp f) { w with urlopens := w.urlopens + 1 }) =
        (.found (saveTo dp f),
         { retrieveTo (saveTo dp f) { w with urlopens := w.urlopens + 1 } with
             urlopens :=
               (retrieveTo (saveTo dp f)
                 { w with urlopens := w.urlopens + 1 }).urlopens + 1 }) := by
      rw [get_image_eq, hinfo]
      dsimp only
      rw [if_pos hmem2]
    rw [hrun1, hrun2]
    exact ⟨rfl, hmem2, rfl, rfl⟩

/-- Claim C3, counterexample: with the derived path already on disk, acquiring
`docGood "3"` still performs a network fetch for that identity — the remote
URL is opened once (`urlopens` goes from 0 to 1); only the payload download is
skipped. -/
theorem c3_counterexample_cache_hit_still_fetches :
    ("/tmp/backgrounds/s3.png" ∈
      (⟨["/tmp/backgrounds/s3.png"], 0, 0⟩ : World).files) ∧
    get_image (docGood "3") dpT siteT oT ⟨["/tmp/backgrounds/s3.png"], 0, 0⟩ =
      (.found "/tmp/backgrounds/s3.png", ⟨["/tmp/backgrounds/s3.png"], 1, 0⟩) := by
  decide

/-- Witness for C3 (amended) at the healthy page `docGood "3"` from an empty
directory. -/
theorem c3_amended_witness :
    get_image_info "a href" (docGood "3") siteT oT w0 =
      (some ("http://apod.nasa.gov/apod/image/s3.jpg", "s3.jpg", 1000),
        ({ files := [], urlopens := 1, urlretrieves := 0 } : World)) ∧
    ((saveTo dpT "s3.jpg" ∈ w0.files →
       get_image (docGood "3") dpT siteT oT w0 =
         (.found (saveTo dpT "s3.jpg"),
           ({ files := [], urlopens := 1, urlretrieves := 0 } : World)) ∧
       ({ files := [], urlopens := 1, urlretrieves := 0 } : World).urlretrieves =
         w0.urlretrieves ∧
       ({ files := [], urlopens := 1, urlretrieves := 0 } : World).files = w0.files ∧
       ({ files := [], urlopens := 1, urlretrieves := 0 } : World).urlopens =
         w0.urlopens + 1) ∧
     (saveTo dpT "s3.jpg" ∉ w0.files → 500 ≤ 1000 →
       (get_image (docGood "3") dpT siteT oT w0).2.urlretrieves =
         w0.urlretrieves + 1 ∧
       saveTo dpT "s3.jpg" ∈ (get_image (docGood "3") dpT siteT oT w0).2.files ∧
       (get_image (docGood "3") dpT siteT oT
           (get_image (docGood "3") dpT siteT oT w0).2).1 =
         .found (saveTo dpT "s3.jpg") ∧
       (get_image (docGood "3") dpT siteT oT
           (get_image (docGood "3") dpT siteT oT w0).2).2.urlretrieves =
         (get_image (docGood "3") dpT siteT oT w0).2.urlretrieves)) :=
  ⟨by decide,
   c3_amended_one_download_but_opens_remote (docGood "3") dpT siteT oT w0
     ({ files := [], urlopens := 1, urlretrieves := 0 } : World)
     "http://apod.nasa.gov/apod/image/s3.jpg" "s3.jpg" 1000 (by decide)⟩

/-- Claim C4 (amended): the walk moves back one day per iteration; a day that
fails by an HTTP fetch error or by yielding no image is skipped without
consuming a seed credit, a day that succeeds decrements the remaining-seed
counter, and the walk ends when the counter reaches zero — but a day whose
acquisition is sub-threshold under both strategies terminates the run via
`exit()` instead of being skipped.  In particular, with a seed target of 3, an
HTTP-failing day and a video day followed by three succeeding days yield
exactly 3 newly acquired images after walking 5 days back. -/
theorem c4_amended_scenario_three_seeds_five_days :
    (seedLoop dpT siteT oT feedC4 3 [] 0 w0).1 =
      ["/tmp/backgrounds/s3.png", "/tmp/backgrounds/s4.png",
       "/tmp/backgrounds/s5.png"] ∧
    (seedLoop dpT siteT oT feedC4 3 [] 0 w0).1.length = 3 ∧
    (seedLoop dpT siteT oT feedC4 3 [] 0 w0).2.1 = 5 ∧
    (seedLoop dpT siteT oT feedC4 3 [] 0 w0).2.2.1.urlretrieves = 3 ∧
    (seedLoop dpT siteT oT feedC4 3 [] 0 w0).2.2.2 = SeedStop.done := by
  decide

/-- Claim C4, counterexample: a day that fails at the acquisition step (both
strategies sub-threshold) is NOT skipped without consuming a credit — the loop
terminates immediately via `exit()` with nothing acquired, although three
healthy days follow that would have satisfied the quota of 3. -/
theorem c4_counterexample_acquisition_failure_terminates :
    (seedLoop dpT siteT oT
        [.ok docSub, .ok (docGood "3"), .ok (docGood "4"), .ok (docGood "5")]
        3 [] 0 w0).1 = [] ∧
    (seedLoop dpT siteT oT
        [.ok docSub, .ok (docGood "3"), .ok (docGood "4"), .ok (docGood "5")]
        3 [] 0 w0).2.2.2 = SeedStop.exited := by
  decide

end NasaApod

namespace NasaApod

/-- Claim C5: for N distinct images the playlist has exactly N entries, each
carrying the run's slide duration and the fixed transition duration "5";
entry i transitions to images[(i+1) mod N], and the successor map
i ↦ (i+1) mod N is a single N-cycle: from any start the chain of
transition-to indices is injective over any N consecutive steps, reaches
every index, and returns to the start after exactly N steps — so the chain
visits every image exactly once and wraps from the last entry to the first
image. -/
theorem c5_playlist_single_cycle :
    ∀ (images : List String) (d : Nat),
      images ≠ [] → images.Nodup →
      (buildPlaylist images d).length = images.length ∧
      (∀ e ∈ buildPlaylist images d, e.duration = d ∧ e.tduration = "5") ∧
      (∀ i, i < images.length →
        ((buildPlaylist images d).getD i default).tto =
          images.getD ((i + 1) % images.length) "") ∧
      (∀ j m1 m2, m1 < images.length → m2 < images.length →
        (j + m1) % images.length = (j + m2) % images.length → m1 = m2) ∧
      (∀ j k, k < images.length →
        ∃ m, m < images.length ∧ (j + m) % images.length = k) ∧
      (∀ j, (j + images.length) % images.length = j % images.length) := by
  intro images d hne _hnd
  have hN : 0 < images.length := List.length_pos.mpr hne
  refine ⟨buildPlaylist_length images d, fun e he => buildPlaylist_mem images d e he,
    ?_, ?_, ?_, fun j => Nat.add_mod_right j images.length⟩
  · intro i hi
    rw [buildPlaylist_getD images d i hi]
    by_cases hend : i + 1 = images.length
    · rw [if_pos hend, hend, Nat.mod_self]
    · have hlt : i + 1 < images.length :=
        Nat.lt_of_le_of_ne (Nat.succ_le_of_lt hi) hend
      rw [if_neg hend, Nat.mod_eq_of_lt hlt]
  · intro j m1 m2 hm1 hm2 heq
    have h3 : m1 ≡ m2 [MOD images.length] := Nat.ModEq.add_left_cancel' j heq
    unfold Nat.ModEq at h3
    rw [Nat.mod_eq_of_lt hm1, Nat.mod_eq_of_lt hm2] at h3
    exact h3
  · intro j k hk
    have hj : j % images.length < images.length := Nat.mod_lt _ hN
    refine ⟨(images.length + k - j % images.length) % images.length,
      Nat.mod_lt _ hN, ?_⟩
    rw [← Nat.mod_add_mod, Nat.add_mod_mod]
    have harith : j % images.length +
        (images.length + k - j % images.length) = images.length + k := by
      omega
    rw [harith, Nat.add_mod_left, Nat.mod_eq_of_lt hk]

/-- Witness for C5 at the three distinct images a, b, c with slide duration 7. -/
theorem c5_witness :
    (["a", "b", "c"] : List String) ≠ [] ∧
    (["a", "b", "c"] : List String).Nodup ∧
    ((buildPlaylist ["a", "b", "c"] 7).length = (["a", "b", "c"] : List String).length ∧
     (∀ e ∈ buildPlaylist ["a", "b", "c"] 7, e.duration = 7 ∧ e.tduration = "5") ∧
     (∀ i, i < (["a", "b", "c"] : List String).length →
       ((buildPlaylist ["a", "b", "c"] 7).getD i default).tto =
         (["a", "b", "c"] : List String).getD
           ((i + 1) % (["a", "b", "c"] : List String).length) "") ∧
     (∀ j m1 m2, m1 < (["a", "b", "c"] : List String).length →
       m2 < (["a", "b", "c"] : List String).length →
       (j + m1) % (["a", "b", "c"] : List String).length =
         (j + m2) % (["a", "b", "c"] : List String).length → m1 = m2) ∧
     (∀ j k, k < (["a", "b", "c"] : List String).length →
       ∃ m, m < (["a", "b", "c"] : List String).length ∧
         (j + m) % (["a", "b", "c"] : List String).length = k) ∧
     (∀ j, (j + (["a", "b", "c"] : List String).length) %
         (["a", "b", "c"] : List String).length =
       j % (["a", "b", "c"] : List String).length)) :=
  ⟨by decide, by decide, c5_playlist_single_cycle ["a", "b", "c"] 7 (by decide) (by decide)⟩

/-- Claim C10: with the scroll feature on, seeding runs exactly when the
number of existing local images is strictly below SEED_IMAGES; when it runs,
it acquires SEED_IMAGES additional images regardless of how many already
exist (given enough healthy days), so the assembly can end with up to
2*SEED_IMAGES - 1 images; when the count is already at or above SEED_IMAGES
no seeding and no network activity happens at all. -/
theorem c10_seed_condition_and_bound :
    ∀ (S dur : Nat) (dp site : String) (o : Oracle) (feed : List HttpOutcome)
      (shuffle : List String → List String) (w : World),
      (∀ l, (shuffle l).length = l.length) →
      (∀ d ∈ feed, goodDay site o d) →
      S ≤ feed.length →
      ((w.files.length < S →
         ∃ r, create_scroll true dur dp S site o feed shuffle w = some r ∧
           r.images.length = w.files.length + S ∧
           r.images.length ≤ 2 * S - 1) ∧
       (S ≤ w.files.length →
         create_scroll true dur dp S site o feed shuffle w =
           some ⟨shuffle w.files, buildPlaylist (shuffle w.files) dur, w⟩ ∧
         (shuffle w.files).length = w.files.length)) := by
  intro S dur dp site o feed shuffle w hshuf hgood hfeed
  constructor
  · intro hlt
    have hlem := seedLoop_all_good dp site o feed hgood S w.files 0 w hfeed
    unfold create_scroll
    rcases hres : seedLoop dp site o feed S w.files 0 w with ⟨imgs2, db, w2, stop⟩
    rw [hres] at hlem
    have hstop : stop = SeedStop.done := hlem.2.1
    subst hstop
    dsimp only [Bool.not_true]
    rw [if_neg (by simp), if_pos hlt, hres]
    refine ⟨⟨shuffle imgs2, buildPlaylist (shuffle imgs2) dur, w2⟩, rfl, ?_, ?_⟩
    · rw [hshuf imgs2]
      exact hlem.1
    · rw [hshuf imgs2, hlem.1]
      omega
  · intro hge
    unfold create_scroll
    dsimp only [Bool.not_true]
    rw [if_neg (by simp), if_neg (Nat.not_lt.mpr hge)]
    exact ⟨rfl, hshuf w.files⟩

/-- Witness for C10 with SEED_IMAGES = 2, two healthy days and an identity
shuffle, starting from an empty directory. -/
theorem c10_witness :
    (∀ l : List String, (id l).length = l.length) ∧
    (∀ d ∈ feedW, goodDay siteT oT d) ∧
    2 ≤ feedW.length ∧
    ((w0.files.length < 2 →
       ∃ r, create_scroll true 10 dpT 2 siteT oT feedW id w0 = some r ∧
         r.images.length = w0.files.length + 2 ∧
         r.images.length ≤ 2 * 2 - 1) ∧
     (2 ≤ w0.files.length →
       create_scroll true 10 dpT 2 siteT oT feedW id w0 =
         some ⟨id w0.files, buildPlaylist (id w0.files) 10, w0⟩ ∧
       (id w0.files).length = w0.files.length)) :=
  ⟨fun _ => rfl,
   fun d hd => by
     simp only [feedW, List.mem_cons, List.not_mem_nil, or_false] at hd
     rcases hd with rfl | rfl
     · exact ⟨docGood "3", "http://apod.nasa.gov/apod/image/s3.jpg", "s3.jpg", 1000,
         rfl, by decide, by decide, by decide⟩
     · exact ⟨docGood "4", "http://apod.nasa.gov/apod/image/s4.jpg", "s4.jpg", 1000,
         rfl, by decide, by decide, by decide⟩,
   by decide,
   c10_seed_condition_and_bound 2 10 dpT siteT oT feedW id w0
     (fun _ => rfl)
     (fun d hd => by
       simp only [feedW, List.mem_cons, List.not_mem_nil, or_false] at hd
       rcases hd with rfl | rfl
       · exact ⟨docGood "3", "http://apod.nasa.gov/apod/image/s3.jpg", "s3.jpg", 1000,
           rfl, by decide, by decide, by decide⟩
       · exact ⟨docGood "4", "http://apod.nasa.gov/apod/image/s4.jpg", "s4.jpg", 1000,
           rfl, by decide, by decide, by decide⟩)
     (by decide)⟩

end NasaApod
